import Mathlib

/-!
Verification of the Mattermost platform runtime substrate.

Shallow embedding of `server/platform/shared/filestore/filesstore.go`
and of the platform-service behaviours exercised by the tests in
`platform` and `app` (replica routing, shutdown draining, metrics
toggling, schema diagnostics).  Go pointers become `Option`, Go errors
become `Except String`, and Go interface values become records of
methods.  Components whose source is not available here (the platform
service proper and the S3 backend constructor) are modelled from the
specification; each such definition says so in its doc comment.
-/

namespace Filestore

/-- Driver-name constant `driverS3 = "amazons3"` from `filesstore.go`. -/
def driverS3 : String := "amazons3"

/-- Driver-name constant `driverLocal = "local"` from `filesstore.go`. -/
def driverLocal : String := "local"

/-- Constant `model.ImageDriverLocal`, the config value naming the local driver. -/
def ImageDriverLocal : String := "local"

/-- Structure `FileBackendSettings` from `filesstore.go`: the resolved (pointer-free)
settings a backend is constructed from. -/
structure FileBackendSettings where
  DriverName : String
  Directory : String
  AmazonS3AccessKeyId : String
  AmazonS3SecretAccessKey : String
  AmazonS3Bucket : String
  AmazonS3PathPrefix : String
  AmazonS3Region : String
  AmazonS3Endpoint : String
  AmazonS3SSL : Bool
  AmazonS3SignV2 : Bool
  AmazonS3SSE : Bool
  AmazonS3Trace : Bool
  SkipVerify : Bool
  AmazonS3RequestTimeoutMilliseconds : Int
  deriving Repr, DecidableEq

/-- The subset of `model.FileSettings` consumed by
`NewFileBackendSettingsFromConfig`; every Go field is a pointer, embedded
as `Option`. -/
structure FileSettings where
  DriverName : Option String
  Directory : Option String
  AmazonS3AccessKeyId : Option String
  AmazonS3SecretAccessKey : Option String
  AmazonS3Bucket : Option String
  AmazonS3PathPrefix : Option String
  AmazonS3Region : Option String
  AmazonS3Endpoint : Option String
  AmazonS3SSL : Option Bool
  AmazonS3SignV2 : Option Bool
  AmazonS3SSE : Option Bool
  AmazonS3Trace : Option Bool
  AmazonS3RequestTimeoutMilliseconds : Option Int
  deriving Repr, DecidableEq

/-- Function `NewFileBackendSettingsFromConfig` from `filesstore.go`.  A Go nil-pointer
dereference is embedded as `Option.bind` failure (`none`); the three
nil-tolerated booleans follow the source expressions
`p == nil || *p` and `p != nil && *p`. -/
def NewFileBackendSettingsFromConfig (fileSettings : FileSettings)
    (enableComplianceFeature : Bool) (skipVerify : Bool) :
    Option FileBackendSettings := do
  let driverName ← fileSettings.DriverName
  if driverName = ImageDriverLocal then
    let directory ← fileSettings.Directory
    pure
      { DriverName := driverName
        Directory := directory
        AmazonS3AccessKeyId := ""
        AmazonS3SecretAccessKey := ""
        AmazonS3Bucket := ""
        AmazonS3PathPrefix := ""
        AmazonS3Region := ""
        AmazonS3Endpoint := ""
        AmazonS3SSL := false
        AmazonS3SignV2 := false
        AmazonS3SSE := false
        AmazonS3Trace := false
        SkipVerify := false
        AmazonS3RequestTimeoutMilliseconds := 0 }
  else
    let accessKeyId ← fileSettings.AmazonS3AccessKeyId
    let secretAccessKey ← fileSettings.AmazonS3SecretAccessKey
    let bucket ← fileSettings.AmazonS3Bucket
    let pathPfx ← fileSettings.AmazonS3PathPrefix
    let region ← fileSettings.AmazonS3Region
    let endpoint ← fileSettings.AmazonS3Endpoint
    let timeoutMs ← fileSettings.AmazonS3RequestTimeoutMilliseconds
    pure
      { DriverName := driverName
        Directory := ""
        AmazonS3AccessKeyId := accessKeyId
        AmazonS3SecretAccessKey := secretAccessKey
        AmazonS3Bucket := bucket
        AmazonS3PathPrefix := pathPfx
        AmazonS3Region := region
        AmazonS3Endpoint := endpoint
        AmazonS3SSL :=
          (match fileSettings.AmazonS3SSL with
            | none => true
            | some b => b)
        AmazonS3SignV2 :=
          (match fileSettings.AmazonS3SignV2 with
            | none => false
            | some b => b)
        AmazonS3SSE :=
          (match fileSettings.AmazonS3SSE with
            | none => false
            | some b => b) && enableComplianceFeature
        AmazonS3Trace :=
          (match fileSettings.AmazonS3Trace with
            | none => false
            | some b => b)
        SkipVerify := skipVerify
        AmazonS3RequestTimeoutMilliseconds := timeoutMs }

/-- Method `CheckMandatoryS3Fields` from `filesstore.go`.  The Go method mutates its
receiver and returns an error; embedded as returning the updated settings in
`Except`. -/
def FileBackendSettings.CheckMandatoryS3Fields (settings : FileBackendSettings) :
    Except String FileBackendSettings :=
  if settings.AmazonS3Bucket = "" then
    .error "missing s3 bucket settings"
  else
    -- if S3 endpoint is not set call the set defaults to set that
    if settings.AmazonS3Endpoint = "" then
      .ok { settings with AmazonS3Endpoint := "s3.amazonaws.com" }
    else
      .ok settings

/-- Structure `LocalFileBackend` from `local.go` (only its construction appears in
`filesstore.go`): a backend rooted at a directory. -/
structure LocalFileBackend where
  directory : String
  deriving Repr, DecidableEq

/-- The S3 backend value.  Its own file (`s3store.go`) is not under `src/`;
for the claims here only the settings it was built from matter. -/
structure S3FileBackend where
  settings : FileBackendSettings
  deriving Repr, DecidableEq

/-- A constructed `FileBackend` value: exactly one concrete variant. -/
inductive FileBackend where
  | localBackend : LocalFileBackend → FileBackend
  | s3Backend : S3FileBackend → FileBackend
  deriving Repr, DecidableEq

/-- Modelled from the spec: `NewS3FileBackend` lives in `s3store.go`, which is
not under `src/`.  The spec says construction "validates two mandatory
preconditions before any network call"; the network-dependent remainder of
construction is the oracle `connect`, consulted only after
`CheckMandatoryS3Fields` succeeds. -/
def NewS3FileBackend (connect : FileBackendSettings → Except String S3FileBackend)
    (settings : FileBackendSettings) : Except String S3FileBackend := do
  let checked ← FileBackendSettings.CheckMandatoryS3Fields settings
  connect checked

/-- Function `NewFileBackend` from `filesstore.go`: a switch on the driver name; the
S3 branch wraps the (spec-modelled) `NewS3FileBackend`, whose network
behaviour is abstracted by `connect`. -/
def NewFileBackend (connect : FileBackendSettings → Except String S3FileBackend)
    (settings : FileBackendSettings) : Except String FileBackend :=
  if settings.DriverName = driverS3 then
    match NewS3FileBackend connect settings with
    | .error err => .error ("unable to connect to the s3 backend: " ++ err)
    | .ok backend => .ok (.s3Backend backend)
  else if settings.DriverName = driverLocal then
    .ok (.localBackend { directory := settings.Directory })
  else
    .error "no valid filestorage driver found"

/-- A Go `FileBackend` interface value, embedded as a record of the methods
the claims need.  The dynamic `ContextWriter` capability — in Go a runtime
type assertion `fb.(ContextWriter)` — is the optional method
`WriteFileContext`: `some` exactly when the dynamic type implements it. -/
structure FileBackendIface (Ctx Reader : Type) where
  WriteFile : Reader → String → Except String Int
  WriteFileContext : Option (Ctx → Reader → String → Except String Int)

/-- Function `TryWriteFileContext` from `filesstore.go`: use the method
`WriteFileContext` of the backend when the capability is present, otherwise fall back to the
plain `WriteFile`, ignoring the context. -/
def TryWriteFileContext {Ctx Reader : Type} (fb : FileBackendIface Ctx Reader)
    (ctx : Ctx) (fr : Reader) (path : String) : Except String Int :=
  match fb.WriteFileContext with
  | some cw => cw ctx fr path
  | none => fb.WriteFile fr path

end Filestore

namespace Platform

/-- The license value held by the license gate; for the claims here only the
read-replica entitlement matters. -/
structure License where
  hasReadReplicaEntitlement : Bool
  deriving Repr, DecidableEq

/-- The subset of `model.SqlSettings` read by topology derivation. -/
structure SqlSettings where
  DataSource : String
  DataSourceReplicas : List String
  DataSourceSearchReplicas : List String
  deriving Repr, DecidableEq

/-- Whether the current license (possibly absent) carries the read-replica
entitlement; absence is the default no-entitlement state, not an error. -/
def entitledToReplicas : Option License → Bool
  | none => false
  | some license => license.hasReadReplicaEntitlement

/-- Modelled from the spec: the database topology produced by the platform
startup wiring of the platform service (`sqlStore` in the platform package, not under
`src/`).  Pool handles are abstract identifiers; the configuration snapshot
is stored unchanged. -/
structure SqlStore where
  snapshot : SqlSettings
  masterHandle : Nat
  replicaPool : List Nat
  searchReplicaPool : List Nat
  deriving Repr, DecidableEq

/-- Modelled from the spec: topology derivation (`Initialize(snapshot,
license)` in §4.1; the platform package is not under `src/`).  If the license
is absent or lacks the entitlement, no replica pool is opened for the listed
DSNs (replica and search-replica alias master); otherwise one pool handle is
opened per configured DSN, each distinct from the master handle. -/
def Initialize (snapshot : SqlSettings) (license : Option License) : SqlStore :=
  if entitledToReplicas license then
    { snapshot := snapshot
      masterHandle := 0
      replicaPool :=
        (List.range snapshot.DataSourceReplicas.length).map (fun i => i + 1)
      searchReplicaPool :=
        (List.range snapshot.DataSourceSearchReplicas.length).map
          (fun i => i + 1 + snapshot.DataSourceReplicas.length) }
  else
    { snapshot := snapshot
      masterHandle := 0
      replicaPool := []
      searchReplicaPool := [] }

/-- Accessor `GetMaster()`: accessor with no side effects. -/
def SqlStore.GetMaster (store : SqlStore) : Nat := store.masterHandle

/-- Accessor `GetReplica()`: when the replica pool is empty (not entitled, or no DSNs)
it returns the master handle; otherwise a pool member picked by the
unprescribed selection policy, abstracted by `choice`. -/
def SqlStore.GetReplica (store : SqlStore) (choice : Nat) : Nat :=
  if store.replicaPool.isEmpty then store.masterHandle
  else store.replicaPool.getD (choice % store.replicaPool.length) store.masterHandle

/-- Accessor `GetSearchReplica()`: same rule as `GetReplica`, over the independent
search-replica pool. -/
def SqlStore.GetSearchReplica (store : SqlStore) (choice : Nat) : Nat :=
  if store.searchReplicaPool.isEmpty then store.masterHandle
  else store.searchReplicaPool.getD (choice % store.searchReplicaPool.length)
    store.masterHandle

/-- Observable events of the goroutine tracker and shutdown coordinator:
a unit of work is registered (`launch`), a unit completes — by success,
error or panic — (`complete`), or `Shutdown()` returns to its caller
(`shutdownReturn`). -/
inductive TrackerEvent where
  | launch
  | complete
  | shutdownReturn
  deriving Repr, DecidableEq

/-- Modelled from the spec: the outstanding-task counter transitions
(`goroutineCount` in the platform package, not under `src/`).  `launch`
atomically increments, `complete` atomically decrements (a completion
without a matching registration cannot occur), and `Shutdown()` blocks its
caller until the count reaches zero, so `shutdownReturn` is enabled only at
count zero. -/
def trackerStep : Nat → TrackerEvent → Option Nat
  | count, .launch => some (count + 1)
  | count + 1, .complete => some count
  | 0, .complete => none
  | 0, .shutdownReturn => some 0
  | _ + 1, .shutdownReturn => none

/-- Run a sequence of tracker events from a counter value; `none` when some
event was not enabled. -/
def runTracker (count : Nat) : List TrackerEvent → Option Nat
  | [] => some count
  | event :: rest =>
    match trackerStep count event with
    | none => none
    | some next => runTracker next rest

/-- Number of occurrences of an event in a trace. -/
def countEvent (event : TrackerEvent) (trace : List TrackerEvent) : Nat :=
  (trace.filter (fun e => e = event)).length

/-- Metrics controller states, from the state machine of the spec (§4.2). -/
inductive MetricsState where
  | notStarted
  | stopped
  | listening
  | terminated
  deriving Repr, DecidableEq

/-- Modelled from the spec: the metrics listener state established when
platform-service construction returns (`New` with or without the
`StartMetrics` option; the platform package is not under `src/`).  Dormant
(`notStarted`) unless the enabling option is present, in which case the
controller exists but no listener is bound yet (`stopped`). -/
def initialMetricsState (startMetricsOption : Bool) : MetricsState :=
  if startMetricsOption then .stopped else .notStarted

/-- Modelled from the spec: the metrics listener state in effect at the
moment a config save (`SaveConfig`, not under `src/`) returns to its caller,
given the committed `MetricsSettings.Enable` value.  The toggle is applied
synchronously within the save; a controller never created by the startup
option stays dormant, and a terminated one never restarts. -/
def applyConfigSave (state : MetricsState) (enable : Bool) : MetricsState :=
  match state with
  | .notStarted => .notStarted
  | .terminated => .terminated
  | .stopped => if enable then .listening else .stopped
  | .listening => if enable then .listening else .stopped

/-- Modelled from the spec: the endpoint answers HTTP 200 exactly while the
listener is bound, and is unreachable in every other state. -/
def reachable : MetricsState → Bool
  | .listening => true
  | _ => false

/-- Modelled from the spec: the diagnostic store state behind
`DatabaseTypeAndSchemaVersion` (platform package, not under `src/`): the
configured driver name and the schema version, the count of applied
migrations. -/
structure DiagStore where
  driverName : String
  appliedMigrations : List String
  deriving Repr, DecidableEq

/-- The database drivers supported by the platform service. -/
def supportedDrivers : List String := ["postgres", "mysql"]

/-- Modelled from the spec: opening the store for a supported driver runs
the migration chain, which always begins with the initial schema migration;
an unsupported driver fails construction. -/
def newDiagStore (driverName : String) (laterMigrations : List String) :
    Option DiagStore :=
  if driverName ∈ supportedDrivers then
    some { driverName := driverName
           appliedMigrations := "initial schema" :: laterMigrations }
  else
    none

/-- Modelled from the spec: `DatabaseTypeAndSchemaVersion()` returns the
underlying driver name and current schema version, purely for diagnostics,
without touching pool state. -/
def DatabaseTypeAndSchemaVersion (store : DiagStore) : String × Nat :=
  (store.driverName, store.appliedMigrations.length)

end Platform

/-- Boolean observer: is an `Except` value an error? -/
def exceptIsError {ε α : Type} : Except ε α → Bool
  | .error _ => true
  | .ok _ => false

/-- Sample S3 settings with an empty bucket, for concrete evaluation. -/
def sampleEmptyBucketSettings : Filestore.FileBackendSettings :=
  { DriverName := "amazons3"
    Directory := ""
    AmazonS3AccessKeyId := "minioaccesskey"
    AmazonS3SecretAccessKey := "miniosecretkey"
    AmazonS3Bucket := ""
    AmazonS3PathPrefix := ""
    AmazonS3Region := "us-east-1"
    AmazonS3Endpoint := ""
    AmazonS3SSL := true
    AmazonS3SignV2 := false
    AmazonS3SSE := false
    AmazonS3Trace := false
    SkipVerify := false
    AmazonS3RequestTimeoutMilliseconds := 30000 }

/-- Sample S3 settings with a bucket but no endpoint, for concrete evaluation. -/
def sampleBucketSettings : Filestore.FileBackendSettings :=
  { sampleEmptyBucketSettings with AmazonS3Bucket := "mattermost-test" }

/-- Sample settings naming a driver that no backend recognizes. -/
def sampleBogusDriverSettings : Filestore.FileBackendSettings :=
  { sampleEmptyBucketSettings with DriverName := "ftp" }

/-- Sample settings for the local driver with all S3 fields at zero values. -/
def sampleLocalSettings : Filestore.FileBackendSettings :=
  { DriverName := "local"
    Directory := "/tmp/filestore"
    AmazonS3AccessKeyId := ""
    AmazonS3SecretAccessKey := ""
    AmazonS3Bucket := ""
    AmazonS3PathPrefix := ""
    AmazonS3Region := ""
    AmazonS3Endpoint := ""
    AmazonS3SSL := false
    AmazonS3SignV2 := false
    AmazonS3SSE := false
    AmazonS3Trace := false
    SkipVerify := false
    AmazonS3RequestTimeoutMilliseconds := 0 }

/-- A network oracle that accepts any validated settings. -/
def acceptingConnect : Filestore.FileBackendSettings →
    Except String Filestore.S3FileBackend :=
  fun checked => .ok { settings := checked }

/-- Sample non-local config `FileSettings`, exercising every nil-tolerated
boolean shape: `AmazonS3SSL` and `AmazonS3Trace` nil, the others set. -/
def sampleS3FileSettings : Filestore.FileSettings :=
  { DriverName := some "amazons3"
    Directory := some "/data"
    AmazonS3AccessKeyId := some "minioaccesskey"
    AmazonS3SecretAccessKey := some "miniosecretkey"
    AmazonS3Bucket := some "mattermost-test"
    AmazonS3PathPrefix := some "prefix-value"
    AmazonS3Region := some "us-east-1"
    AmazonS3Endpoint := some "s3.example.com"
    AmazonS3SSL := none
    AmazonS3SignV2 := some true
    AmazonS3SSE := some true
    AmazonS3Trace := none
    AmazonS3RequestTimeoutMilliseconds := some 1000 }

/-- The backend settings `NewFileBackendSettingsFromConfig` produces from
`sampleS3FileSettings` with the compliance feature on. -/
def sampleS3ResolvedSettings : Filestore.FileBackendSettings :=
  { DriverName := "amazons3"
    Directory := ""
    AmazonS3AccessKeyId := "minioaccesskey"
    AmazonS3SecretAccessKey := "miniosecretkey"
    AmazonS3Bucket := "mattermost-test"
    AmazonS3PathPrefix := "prefix-value"
    AmazonS3Region := "us-east-1"
    AmazonS3Endpoint := "s3.example.com"
    AmazonS3SSL := true
    AmazonS3SignV2 := true
    AmazonS3SSE := true
    AmazonS3Trace := false
    SkipVerify := false
    AmazonS3RequestTimeoutMilliseconds := 1000 }

/-- A sample backend interface value without the `ContextWriter` capability:
its plain write returns the length of the path as the byte count. -/
def samplePlainBackend : Filestore.FileBackendIface Nat String :=
  { WriteFile := fun _ path => .ok (Int.ofNat path.length)
    WriteFileContext := none }

/-- A sample backend interface value with the `ContextWriter` capability,
whose context write returns the context value. -/
def sampleContextBackend : Filestore.FileBackendIface Nat String :=
  { WriteFile := fun _ path => .ok (Int.ofNat path.length)
    WriteFileContext := some (fun ctx _ _ => .ok (Int.ofNat ctx)) }

/-- Sample SQL settings with one replica DSN and one search-replica DSN. -/
def sampleSqlSettings : Platform.SqlSettings :=
  { DataSource := "postgres://master"
    DataSourceReplicas := ["postgres://replica"]
    DataSourceSearchReplicas := ["postgres://search-replica"] }

/-- A license carrying the read-replica entitlement. -/
def entitledLicense : Platform.License :=
  { hasReadReplicaEntitlement := true }

/-- C4: S3 mandatory-field validation — `CheckMandatoryS3Fields` returns an
error exactly when `AmazonS3Bucket` is empty; with a non-empty bucket and an
empty endpoint it sets the endpoint to the well-known public value
`s3.amazonaws.com` and succeeds; and with an empty bucket the S3 backend
construction fails identically for every network behaviour, so validation
happens before any network call is attempted. -/
theorem checkMandatoryS3Fields_spec (settings : Filestore.FileBackendSettings) :
    (exceptIsError (Filestore.FileBackendSettings.CheckMandatoryS3Fields settings) = true ↔
      settings.AmazonS3Bucket = "") ∧
    (settings.AmazonS3Bucket ≠ "" → settings.AmazonS3Endpoint = "" →
      Filestore.FileBackendSettings.CheckMandatoryS3Fields settings =
        .ok { settings with AmazonS3Endpoint := "s3.amazonaws.com" }) ∧
    (settings.AmazonS3Bucket = "" →
      ∀ connect, Filestore.NewS3FileBackend connect settings =
        .error "missing s3 bucket settings") := by
  unfold Filestore.NewS3FileBackend Filestore.FileBackendSettings.CheckMandatoryS3Fields
  by_cases hb : settings.AmazonS3Bucket = "" <;>
    by_cases he : settings.AmazonS3Endpoint = "" <;>
      simp [hb, he, exceptIsError, Bind.bind, Except.bind]

/-- Closed check for C4 at concrete inputs: a settings value with a bucket and
no endpoint gets the default endpoint, and one with an empty bucket fails S3
construction under an accepting network oracle. -/
theorem checkMandatoryS3Fields_spec_check :
    Filestore.FileBackendSettings.CheckMandatoryS3Fields sampleBucketSettings =
      .ok { sampleBucketSettings with AmazonS3Endpoint := "s3.amazonaws.com" } ∧
    Filestore.NewS3FileBackend acceptingConnect sampleEmptyBucketSettings =
      .error "missing s3 bucket settings" :=
  ⟨(checkMandatoryS3Fields_spec sampleBucketSettings).2.1 (by decide) rfl,
   (checkMandatoryS3Fields_spec sampleEmptyBucketSettings).2.2 rfl acceptingConnect⟩

/-- C5: an unrecognized driver name is fatal — for every settings value whose
driver name is neither `amazons3` nor `local`, `NewFileBackend` returns an
error (no backend value, no fallback variant), whatever the network oracle. -/
theorem newFileBackend_unrecognized_driver_fatal
    (connect : Filestore.FileBackendSettings → Except String Filestore.S3FileBackend)
    (settings : Filestore.FileBackendSettings)
    (h1 : settings.DriverName ≠ Filestore.driverS3)
    (h2 : settings.DriverName ≠ Filestore.driverLocal) :
    Filestore.NewFileBackend connect settings =
      .error "no valid filestorage driver found" := by
  simp [Filestore.NewFileBackend, h1, h2]

/-- Closed check for C5 at a concrete input: driver name `ftp` is rejected. -/
theorem newFileBackend_unrecognized_driver_fatal_check :
    Filestore.NewFileBackend acceptingConnect sampleBogusDriverSettings =
      .error "no valid filestorage driver found" :=
  newFileBackend_unrecognized_driver_fatal acceptingConnect sampleBogusDriverSettings
    (by decide) (by decide)

/-- C6: cancellable-write fallback — `TryWriteFileContext` forwards to the
method `WriteFileContext` of the backend with the supplied context when the capability is
present, and otherwise returns exactly the plain `WriteFile` result on the
same reader and path, the supplied context having no effect on that call. -/
theorem tryWriteFileContext_fallback {Ctx Reader : Type}
    (fb : Filestore.FileBackendIface Ctx Reader) (ctx : Ctx) (fr : Reader)
    (path : String) :
    (∀ cw, fb.WriteFileContext = some cw →
      Filestore.TryWriteFileContext fb ctx fr path = cw ctx fr path) ∧
    (fb.WriteFileContext = none →
      Filestore.TryWriteFileContext fb ctx fr path = fb.WriteFile fr path ∧
      ∀ otherCtx, Filestore.TryWriteFileContext fb otherCtx fr path =
        Filestore.TryWriteFileContext fb ctx fr path) := by
  constructor
  · intro cw hcw
    simp [Filestore.TryWriteFileContext, hcw]
  · intro hnone
    simp [Filestore.TryWriteFileContext, hnone]

/-- Closed check for C6 at concrete inputs: a capability-bearing backend uses
the context write, and a plain backend falls back to `WriteFile` with the
context ignored. -/
theorem tryWriteFileContext_fallback_check :
    Filestore.TryWriteFileContext sampleContextBackend 7 "reader" "path/a" =
      .ok 7 ∧
    Filestore.TryWriteFileContext samplePlainBackend 7 "reader" "path/a" =
      samplePlainBackend.WriteFile "reader" "path/a" ∧
    Filestore.TryWriteFileContext samplePlainBackend 99 "reader" "path/a" =
      Filestore.TryWriteFileContext samplePlainBackend 7 "reader" "path/a" :=
  ⟨(tryWriteFileContext_fallback sampleContextBackend 7 "reader" "path/a").1
      (fun ctx _ _ => .ok (Int.ofNat ctx)) rfl,
   ((tryWriteFileContext_fallback samplePlainBackend 7 "reader" "path/a").2 rfl).1,
   ((tryWriteFileContext_fallback samplePlainBackend 7 "reader" "path/a").2 rfl).2 99⟩

/-- C8: local construction needs no object-store fields — for every settings
value with driver name `local`, `NewFileBackend` succeeds with a
`LocalFileBackend` rooted at the configured directory, whatever the other
fields hold. -/
theorem newFileBackend_local_backend
    (connect : Filestore.FileBackendSettings → Except String Filestore.S3FileBackend)
    (settings : Filestore.FileBackendSettings)
    (h : settings.DriverName = Filestore.driverLocal) :
    Filestore.NewFileBackend connect settings =
      .ok (.localBackend { directory := settings.Directory }) := by
  have hs3 : settings.DriverName ≠ Filestore.driverS3 := by rw [h]; decide
  unfold Filestore.NewFileBackend
  rw [if_neg hs3, if_pos h]

/-- Closed check for C8 at a concrete input: local driver with every S3 field
at its zero value yields a local backend rooted at the directory. -/
theorem newFileBackend_local_backend_check :
    Filestore.NewFileBackend acceptingConnect sampleLocalSettings =
      .ok (.localBackend { directory := "/tmp/filestore" }) :=
  newFileBackend_local_backend acceptingConnect sampleLocalSettings rfl

/-- Helper: in the non-local branch of `NewFileBackendSettingsFromConfig`,
the four nil-tolerated booleans of a successfully produced settings value are
determined by the config pointers exactly as the source expressions say. -/
theorem fromConfig_nonlocal_fields (fileSettings : Filestore.FileSettings)
    (enableComplianceFeature skipVerify : Bool)
    (result : Filestore.FileBackendSettings) (d : String)
    (hd : fileSettings.DriverName = some d)
    (hnl : d ≠ Filestore.ImageDriverLocal)
    (h : Filestore.NewFileBackendSettingsFromConfig fileSettings
      enableComplianceFeature skipVerify = some result) :
    result.AmazonS3SSL = fileSettings.AmazonS3SSL.getD true ∧
    result.AmazonS3SignV2 = fileSettings.AmazonS3SignV2.getD false ∧
    result.AmazonS3SSE =
      (fileSettings.AmazonS3SSE.getD false && enableComplianceFeature) ∧
    result.AmazonS3Trace = fileSettings.AmazonS3Trace.getD false := by
  unfold Filestore.NewFileBackendSettingsFromConfig at h
  rw [hd] at h
  simp only [Option.bind_eq_bind, Option.some_bind, if_neg hnl,
    Option.bind_eq_some, pure, Option.some.injEq] at h
  obtain ⟨ak, -, sk, -, bk, -, pp, -, rg, -, ep, -, tm, -, h⟩ := h
  subst h
  refine ⟨?_, ?_, ?_, ?_⟩ <;>
    first
      | (cases fileSettings.AmazonS3SSL <;> rfl)
      | (cases fileSettings.AmazonS3SignV2 <;> rfl)
      | (cases fileSettings.AmazonS3SSE <;> rfl)
      | (cases fileSettings.AmazonS3Trace <;> rfl)

/-- C9: server-side encryption is compliance-gated — for every non-local
config input that resolves successfully, the produced `AmazonS3SSE` flag is
true exactly when the config pointer `AmazonS3SSE` is non-nil and true and
the compliance feature is enabled. -/
theorem fromConfig_sse_compliance_gated (fileSettings : Filestore.FileSettings)
    (enableComplianceFeature skipVerify : Bool)
    (result : Filestore.FileBackendSettings) (d : String)
    (hd : fileSettings.DriverName = some d)
    (hnl : d ≠ Filestore.ImageDriverLocal)
    (h : Filestore.NewFileBackendSettingsFromConfig fileSettings
      enableComplianceFeature skipVerify = some result) :
    (result.AmazonS3SSE = true ↔
      fileSettings.AmazonS3SSE = some true ∧ enableComplianceFeature = true) := by
  have hf := fromConfig_nonlocal_fields fileSettings enableComplianceFeature
    skipVerify result d hd hnl h
  rw [hf.2.2.1]
  cases hsse : fileSettings.AmazonS3SSE with
  | none => simp
  | some b => cases b <;> cases enableComplianceFeature <;> simp

/-- Closed check for C9 at a concrete input: with the compliance feature on
and the config pointer set to true, the produced flag is true. -/
theorem fromConfig_sse_compliance_gated_check :
    sampleS3ResolvedSettings.AmazonS3SSE = true ↔
      sampleS3FileSettings.AmazonS3SSE = some true ∧ true = true :=
  fromConfig_sse_compliance_gated sampleS3FileSettings true false
    sampleS3ResolvedSettings "amazons3" rfl (by decide) (by decide)

/-- C10: nil-tolerant boolean defaults — for every non-local config input
that resolves successfully, a nil `AmazonS3SSL` pointer defaults to true (a
non-nil one is copied), while `AmazonS3SignV2` and `AmazonS3Trace` are true
only when their pointers are non-nil and point to true. -/
theorem fromConfig_nil_bool_defaults (fileSettings : Filestore.FileSettings)
    (enableComplianceFeature skipVerify : Bool)
    (result : Filestore.FileBackendSettings) (d : String)
    (hd : fileSettings.DriverName = some d)
    (hnl : d ≠ Filestore.ImageDriverLocal)
    (h : Filestore.NewFileBackendSettingsFromConfig fileSettings
      enableComplianceFeature skipVerify = some result) :
    (fileSettings.AmazonS3SSL = none → result.AmazonS3SSL = true) ∧
    (∀ b, fileSettings.AmazonS3SSL = some b → result.AmazonS3SSL = b) ∧
    (result.AmazonS3SignV2 = true ↔ fileSettings.AmazonS3SignV2 = some true) ∧
    (result.AmazonS3Trace = true ↔ fileSettings.AmazonS3Trace = some true) := by
  have hf := fromConfig_nonlocal_fields fileSettings enableComplianceFeature
    skipVerify result d hd hnl h
  refine ⟨?_, ?_, ?_, ?_⟩
  · intro hnil; rw [hf.1, hnil]; rfl
  · intro b hb; rw [hf.1, hb]; rfl
  · rw [hf.2.1]
    cases hs : fileSettings.AmazonS3SignV2 with
    | none => simp
    | some b => cases b <;> simp
  · rw [hf.2.2.2]
    cases ht : fileSettings.AmazonS3Trace with
    | none => simp
    | some b => cases b <;> simp

/-- Closed check for C10 at a concrete input: nil `AmazonS3SSL` yields true,
set `AmazonS3SignV2 = true` is copied, and nil `AmazonS3Trace` yields false. -/
theorem fromConfig_nil_bool_defaults_check :
    sampleS3ResolvedSettings.AmazonS3SSL = true ∧
    (sampleS3ResolvedSettings.AmazonS3SignV2 = true ↔
      sampleS3FileSettings.AmazonS3SignV2 = some true) ∧
    (sampleS3ResolvedSettings.AmazonS3Trace = true ↔
      sampleS3FileSettings.AmazonS3Trace = some true) :=
  ⟨(fromConfig_nil_bool_defaults sampleS3FileSettings true false
      sampleS3ResolvedSettings "amazons3" rfl (by decide) (by decide)).1 rfl,
   (fromConfig_nil_bool_defaults sampleS3FileSettings true false
      sampleS3ResolvedSettings "amazons3" rfl (by decide) (by decide)).2.2.1,
   (fromConfig_nil_bool_defaults sampleS3FileSettings true false
      sampleS3ResolvedSettings "amazons3" rfl (by decide) (by decide)).2.2.2⟩

/-- Helper: a handle selected from the entitled replica pool is the successor
of an index below the pool length, offset past the master handle. -/
theorem getD_range_map_add (n off i : Nat) (h : i < n) :
    ((List.range n).map (fun j => j + 1 + off)).getD i 0 = i + 1 + off := by
  simp [List.getD_eq_getElem?_getD, List.getElem?_map, List.getElem?_range h]

/-- C1: license-gated replica routing — without the entitlement both
`GetReplica` and `GetSearchReplica` return the master handle regardless of
configured DSNs; with the entitlement and at least one configured DSN each
returns a handle distinct from the master, under every selection choice; and
construction stores the configuration snapshot unchanged. -/
theorem license_gated_replica_routing (snapshot : Platform.SqlSettings)
    (license : Option Platform.License) (choice : Nat) :
    (Platform.entitledToReplicas license = false →
      (Platform.Initialize snapshot license).GetReplica choice =
        (Platform.Initialize snapshot license).GetMaster ∧
      (Platform.Initialize snapshot license).GetSearchReplica choice =
        (Platform.Initialize snapshot license).GetMaster) ∧
    (Platform.entitledToReplicas license = true →
      snapshot.DataSourceReplicas ≠ [] →
      (Platform.Initialize snapshot license).GetReplica choice ≠
        (Platform.Initialize snapshot license).GetMaster) ∧
    (Platform.entitledToReplicas license = true →
      snapshot.DataSourceSearchReplicas ≠ [] →
      (Platform.Initialize snapshot license).GetSearchReplica choice ≠
        (Platform.Initialize snapshot license).GetMaster) ∧
    (Platform.Initialize snapshot license).snapshot = snapshot := by
  refine ⟨?_, ?_, ?_, ?_⟩
  · intro hno
    simp [Platform.Initialize, hno, Platform.SqlStore.GetReplica,
      Platform.SqlStore.GetSearchReplica, Platform.SqlStore.GetMaster]
  · intro hyes hne
    have hlen : 0 < snapshot.DataSourceReplicas.length := List.length_pos.mpr hne
    have hpool : (Platform.Initialize snapshot license).replicaPool =
        (List.range snapshot.DataSourceReplicas.length).map (fun i => i + 1) := by
      rw [Platform.Initialize, if_pos hyes]
    have hmaster : (Platform.Initialize snapshot license).masterHandle = 0 := by
      rw [Platform.Initialize, if_pos hyes]
    have hempty : ((List.range snapshot.DataSourceReplicas.length).map
        (fun i => i + 1)).isEmpty = false := by
      rw [← Bool.not_eq_true]
      simp [List.isEmpty_iff, List.range_eq_nil]
      exact hne
    unfold Platform.SqlStore.GetReplica Platform.SqlStore.GetMaster
    rw [hpool, hmaster, hempty]
    simp only [Bool.false_eq_true, if_false]
    have hmod : choice % ((List.range snapshot.DataSourceReplicas.length).map
        (fun i => i + 1)).length < snapshot.DataSourceReplicas.length := by
      simpa using Nat.mod_lt _ hlen
    have hval := getD_range_map_add snapshot.DataSourceReplicas.length 0
      (choice % ((List.range snapshot.DataSourceReplicas.length).map
        (fun i => i + 1)).length) hmod
    simp only [Nat.add_zero] at hval
    omega
  · intro hyes hne
    have hlen : 0 < snapshot.DataSourceSearchReplicas.length :=
      List.length_pos.mpr hne
    have hpool : (Platform.Initialize snapshot license).searchReplicaPool =
        (List.range snapshot.DataSourceSearchReplicas.length).map
          (fun i => i + 1 + snapshot.DataSourceReplicas.length) := by
      rw [Platform.Initialize, if_pos hyes]
    have hmaster : (Platform.Initialize snapshot license).masterHandle = 0 := by
      rw [Platform.Initialize, if_pos hyes]
    have hempty : ((List.range snapshot.DataSourceSearchReplicas.length).map
        (fun i => i + 1 + snapshot.DataSourceReplicas.length)).isEmpty = false := by
      rw [← Bool.not_eq_true]
      simp [List.isEmpty_iff, List.range_eq_nil]
      exact hne
    unfold Platform.SqlStore.GetSearchReplica Platform.SqlStore.GetMaster
    rw [hpool, hmaster, hempty]
    simp only [Bool.false_eq_true, if_false]
    have hmod : choice % ((List.range snapshot.DataSourceSearchReplicas.length).map
        (fun i => i + 1 + snapshot.DataSourceReplicas.length)).length <
        snapshot.DataSourceSearchReplicas.length := by
      simpa using Nat.mod_lt _ hlen
    have hval := getD_range_map_add snapshot.DataSourceSearchReplicas.length
      snapshot.DataSourceReplicas.length
      (choice % ((List.range snapshot.DataSourceSearchReplicas.length).map
        (fun i => i + 1 + snapshot.DataSourceReplicas.length)).length) hmod
    omega
  · cases h : Platform.entitledToReplicas license <;>
      simp [Platform.Initialize, h]

/-- Closed check for C1 at concrete inputs: one replica DSN each way; without
a license replica equals master, with an entitled license both replica kinds
differ from master, and the snapshot is stored unchanged. -/
theorem license_gated_replica_routing_check :
    (Platform.Initialize sampleSqlSettings none).GetReplica 0 =
      (Platform.Initialize sampleSqlSettings none).GetMaster ∧
    (Platform.Initialize sampleSqlSettings (some entitledLicense)).GetReplica 0 ≠
      (Platform.Initialize sampleSqlSettings (some entitledLicense)).GetMaster ∧
    (Platform.Initialize sampleSqlSettings (some entitledLicense)).GetSearchReplica 0 ≠
      (Platform.Initialize sampleSqlSettings (some entitledLicense)).GetMaster ∧
    (Platform.Initialize sampleSqlSettings (some entitledLicense)).snapshot =
      sampleSqlSettings :=
  ⟨((license_gated_replica_routing sampleSqlSettings none 0).1 rfl).1,
   (license_gated_replica_routing sampleSqlSettings (some entitledLicense) 0).2.1
      rfl (by decide),
   (license_gated_replica_routing sampleSqlSettings (some entitledLicense) 0).2.2.1
      rfl (by decide),
   (license_gated_replica_routing sampleSqlSettings (some entitledLicense) 0).2.2.2⟩

/-- Helper: one step of a trace run. -/
theorem runTracker_cons (count : Nat) (event : Platform.TrackerEvent)
    (rest : List Platform.TrackerEvent) :
    Platform.runTracker count (event :: rest) =
      match Platform.trackerStep count event with
      | none => none
      | some next => Platform.runTracker next rest := rfl

/-- Helper: occurrence counts over a cons. -/
theorem countEvent_cons (event head : Platform.TrackerEvent)
    (rest : List Platform.TrackerEvent) :
    Platform.countEvent event (head :: rest) =
      (if head = event then 1 else 0) + Platform.countEvent event rest := by
  by_cases h : head = event
  all_goals simp [Platform.countEvent, List.filter_cons, h]
  all_goals omega

/-- Helper: running a concatenated trace runs the pieces in order. -/
theorem runTracker_append (first rest : List Platform.TrackerEvent) :
    ∀ count, Platform.runTracker count (first ++ rest) =
      match Platform.runTracker count first with
      | none => none
      | some mid => Platform.runTracker mid rest := by
  induction first with
  | nil => intro count; rfl
  | cons event tail ih =>
    intro count
    rw [List.cons_append, runTracker_cons, runTracker_cons]
    cases Platform.trackerStep count event with
    | none => rfl
    | some next => exact ih next

/-- Helper: the counter accounts exactly for registrations and completions —
over any successfully run trace, start plus launches equals final plus
completions. -/
theorem runTracker_counts (trace : List Platform.TrackerEvent) :
    ∀ start final, Platform.runTracker start trace = some final →
      start + Platform.countEvent .launch trace =
        final + Platform.countEvent .complete trace := by
  induction trace with
  | nil =>
    intro start final h
    simp only [Platform.runTracker, Option.some.injEq] at h
    subst h
    simp [Platform.countEvent]
  | cons event tail ih =>
    intro start final h
    rw [runTracker_cons] at h
    cases event with
    | launch =>
      simp only [Platform.trackerStep] at h
      have hc := ih (start + 1) final h
      simp [countEvent_cons]
      omega
    | complete =>
      cases start with
      | zero => simp [Platform.trackerStep] at h
      | succ prev =>
        simp only [Platform.trackerStep] at h
        have hc := ih prev final h
        simp [countEvent_cons]
        omega
    | shutdownReturn =>
      cases start with
      | zero =>
        simp only [Platform.trackerStep] at h
        have hc := ih 0 final h
        simp [countEvent_cons]
        omega
      | succ prev => simp [Platform.trackerStep] at h

/-- C2: shutdown drains all tracked work — in every executable event sequence
of the tracker (any number of launched units, including zero) in which
`Shutdown()` returns, the prefix before the return is balanced: every
launched unit has completed and the outstanding counter is exactly zero at
the moment of return; and the trace consisting of a bare shutdown (zero
units) executes immediately. -/
theorem shutdown_drains_all_tracked_work (pre post : List Platform.TrackerEvent)
    (final : Nat)
    (h : Platform.runTracker 0
      (pre ++ Platform.TrackerEvent.shutdownReturn :: post) = some final) :
    Platform.runTracker 0 pre = some 0 ∧
    Platform.countEvent .launch pre = Platform.countEvent .complete pre ∧
    Platform.runTracker 0 [Platform.TrackerEvent.shutdownReturn] = some 0 := by
  rw [runTracker_append] at h
  cases hmid : Platform.runTracker 0 pre with
  | none =>
    rw [hmid] at h
    exact Option.noConfusion h
  | some mid =>
    rw [hmid] at h
    cases mid with
    | zero =>
      have hcount := runTracker_counts pre 0 0 hmid
      exact ⟨rfl, by omega, rfl⟩
    | succ m => exact Option.noConfusion h

/-- Closed check for C2 at a concrete trace: one launch and one completion
before shutdown, and the zero-unit shutdown. -/
theorem shutdown_drains_all_tracked_work_check :
    Platform.runTracker 0
      [Platform.TrackerEvent.launch, Platform.TrackerEvent.complete] = some 0 ∧
    Platform.countEvent .launch
        [Platform.TrackerEvent.launch, Platform.TrackerEvent.complete] =
      Platform.countEvent .complete
        [Platform.TrackerEvent.launch, Platform.TrackerEvent.complete] ∧
    Platform.runTracker 0 [Platform.TrackerEvent.shutdownReturn] = some 0 :=
  shutdown_drains_all_tracked_work
    [Platform.TrackerEvent.launch, Platform.TrackerEvent.complete] [] 0 rfl

/-- Helper: once the controller is active (stopped or listening), config
saves keep it in one of those two states — never dormant or terminated. -/
theorem foldl_applyConfigSave_active (saves : List Bool) :
    ∀ state, (state = Platform.MetricsState.stopped ∨
        state = Platform.MetricsState.listening) →
      (List.foldl Platform.applyConfigSave state saves =
          Platform.MetricsState.stopped ∨
        List.foldl Platform.applyConfigSave state saves =
          Platform.MetricsState.listening) := by
  induction saves with
  | nil => intro state hs; simpa using hs
  | cons save rest ih =>
    intro state hs
    rw [List.foldl_cons]
    apply ih
    rcases hs with h | h <;> subst h <;> cases save <;>
      simp [Platform.applyConfigSave]

/-- C3: metrics toggle is synchronous with config commit — on a service
built with the metrics option the endpoint is unreachable before any save;
an enabling save leaves it answering and a disabling save leaves it
unreachable the moment the save returns, from every non-dormant,
non-terminated state; and after any save sequence whose last committed value
disables metrics, the endpoint is unreachable — no successful response after
the disabling save has returned. -/
theorem metrics_toggle_synchronous (saves : List Bool) :
    Platform.reachable (Platform.initialMetricsState true) = false ∧
    (∀ state, state ≠ Platform.MetricsState.notStarted →
      state ≠ Platform.MetricsState.terminated →
      Platform.reachable (Platform.applyConfigSave state true) = true ∧
      Platform.reachable (Platform.applyConfigSave state false) = false) ∧
    Platform.reachable
      (List.foldl Platform.applyConfigSave (Platform.initialMetricsState true)
        (saves ++ [false])) = false := by
  refine ⟨rfl, ?_, ?_⟩
  · intro state h1 h2
    cases state with
    | notStarted => exact absurd rfl h1
    | terminated => exact absurd rfl h2
    | stopped => exact ⟨rfl, rfl⟩
    | listening => exact ⟨rfl, rfl⟩
  · rw [List.foldl_append]
    have hact := foldl_applyConfigSave_active saves
      (Platform.initialMetricsState true) (Or.inl rfl)
    rcases hact with h | h <;> rw [h] <;> rfl

/-- Closed check for C3 at a concrete save sequence: false→true→false gives
unreachable → reachable → unreachable. -/
theorem metrics_toggle_synchronous_check :
    Platform.reachable (Platform.initialMetricsState true) = false ∧
    Platform.reachable
      (Platform.applyConfigSave Platform.MetricsState.stopped true) = true ∧
    Platform.reachable
      (Platform.applyConfigSave Platform.MetricsState.stopped false) = false ∧
    Platform.reachable
      (List.foldl Platform.applyConfigSave (Platform.initialMetricsState true)
        ([true] ++ [false])) = false :=
  ⟨(metrics_toggle_synchronous [true]).1,
   ((metrics_toggle_synchronous [true]).2.1 Platform.MetricsState.stopped
      (by decide) (by decide)).1,
   ((metrics_toggle_synchronous [true]).2.1 Platform.MetricsState.stopped
      (by decide) (by decide)).2,
   (metrics_toggle_synchronous [true]).2.2⟩

/-- C7: schema diagnostics — for every supported driver whose store opens
successfully, `DatabaseTypeAndSchemaVersion` reports the configured driver
name and a schema version of at least 1 (the initial migration is always
applied). -/
theorem databaseTypeAndSchemaVersion_spec (driverName : String)
    (laterMigrations : List String) (store : Platform.DiagStore)
    (h : Platform.newDiagStore driverName laterMigrations = some store) :
    (Platform.DatabaseTypeAndSchemaVersion store).1 = driverName ∧
    1 ≤ (Platform.DatabaseTypeAndSchemaVersion store).2 := by
  unfold Platform.newDiagStore at h
  split at h
  · simp only [Option.some.injEq] at h
    subst h
    refine ⟨rfl, ?_⟩
    simp [Platform.DatabaseTypeAndSchemaVersion]
  · exact Option.noConfusion h

/-- Closed check for C7 at a concrete input: the postgres store with no
further migrations reports driver `postgres` and version 1. -/
theorem databaseTypeAndSchemaVersion_spec_check :
    (Platform.DatabaseTypeAndSchemaVersion
      { driverName := "postgres", appliedMigrations := ["initial schema"] }).1 =
        "postgres" ∧
    1 ≤ (Platform.DatabaseTypeAndSchemaVersion
      { driverName := "postgres", appliedMigrations := ["initial schema"] }).2 :=
  databaseTypeAndSchemaVersion_spec "postgres" []
    { driverName := "postgres", appliedMigrations := ["initial schema"] } rfl
